import Mathlib

/-!
Shallow embedding of the build orchestration logic of slangpy's `setup.py`.

The source is a single Python file that

* resolves the running OS and CPU architecture to a CMake preset
  (module level, lines 25-65),
* reads two mode flags from the environment (lines 69-73),
* in `CMakeBuild.build_extension` wipes the build working directory,
  assembles the ordered `cmake` configuration argument list and runs the
  configure / build / install pipeline (lines 85-178),
* extracts the package version from a header with a MULTILINE regex
  (lines 201-206), and
* decides whether to build the native extension at all (lines 211-216).

Machine strings, environment lookups and filesystem query answers are
explicit inputs; fallible Python code (raises, failed asserts, IndexError)
is embedded as `Except String`.
-/

set_option maxRecDepth 16384

/-- Characters accepted by the whitespace class of Python's `re` module on
ASCII input: space, tab, newline, carriage return, vertical tab, form feed. -/
def isPySpace (c : Char) : Bool :=
  c == ' ' || c == '\t' || c == '\n' || c == '\r' || c == '\x0b' || c == '\x0c'

/-- ASCII uppercase letters, the regex character class A-Z of `VERSION_REGEX`. -/
def isAsciiUpper (c : Char) : Bool :=
  decide ('A' ≤ c) && decide (c ≤ 'Z')

/-- Lowercasing of a single character as done by `str.lower`, modelled on the
ASCII range (sufficient for the architecture identifiers the code compares
against: `arm64`, `aarch64`, `AMD64`, ...). -/
def asciiLowerChar (c : Char) : Char :=
  if isAsciiUpper c then Char.ofNat (c.toNat + 32) else c

/-- Embedding of `str.lower` (line 38, `platform.machine().lower()`). -/
def asciiLower (s : String) : String :=
  String.mk (s.data.map asciiLowerChar)

/-- Embedding of `str.startswith` (lines 25-31, `sys.platform.startswith`). -/
def pyStartsWith (s pre : String) : Bool :=
  List.isPrefixOf pre.data s.data

/-- Splitting a character list at every occurrence of a separator character.
This matches Python `str.split` with an explicit one-character separator
(line 169, `split(" ")`): empty pieces are kept, exactly as in Python. -/
def splitOnChar (sep : Char) : List Char → List (List Char)
  | [] => [[]]
  | c :: rest =>
    if c = sep then [] :: splitOnChar sep rest
    else
      match splitOnChar sep rest with
      | [] => [c] :: []
      | l :: ls => (c :: l) :: ls

/-- Embedding of one anchored match attempt of
`VERSION_REGEX = re.compile(r"^\s*#\s*define\s+SGL_VERSION_([A-Z]+)\s+(.*)$", re.MULTILINE)`
(line 201) at a position where the MULTILINE `^` holds (the caller attempts
matches only there).  The `\s` runs may cross newlines, so a directive may
span several lines.  The pattern is matched without backtracking, which is
faithful because every greedy element is followed by a token drawn from a
disjoint character class: `\s*` and `\s+` runs are followed by the
non-whitespace tokens `#`, `d`, `S` or by `(.*)$` (where the maximal
whitespace run, then the maximal newline-free run, always reach a MULTILINE
`$`), and the maximal `[A-Z]+` run must be followed by whitespace, which no
shorter non-empty run can be.  Returns the two captured groups
`(suffix, value)` together with the rest of the input after the match end
(the `$` position, just before a newline or at the end of input). -/
def tryMatchVersion (cs : List Char) : Option ((String × String) × List Char) :=
  match cs.dropWhile isPySpace with
  | '#' :: rest1 =>
    let rest2 := rest1.dropWhile isPySpace
    if rest2.take 6 = "define".data then
      match rest2.drop 6 with
      | c :: rest3 =>
        if isPySpace c then
          let rest4 := rest3.dropWhile isPySpace
          if rest4.take 12 = "SGL_VERSION_".data then
            let rest5 := rest4.drop 12
            let grp1 := rest5.takeWhile isAsciiUpper
            match rest5.dropWhile isAsciiUpper with
            | d :: rest6 =>
              if grp1 ≠ [] && isPySpace d then
                some ((String.mk grp1,
                  String.mk (((d :: rest6).dropWhile isPySpace).takeWhile (fun ch => !(ch == '\n')))),
                  ((d :: rest6).dropWhile isPySpace).dropWhile (fun ch => !(ch == '\n')))
              else none
            | [] => none
          else none
        else none
      | [] => none
    else none
  | _ => none

/-- Embedding of the left-to-right non-overlapping scan of
`VERSION_REGEX.findall` over the remaining input.  The boolean records
whether the current position is a MULTILINE `^` position (start of input or
just after a newline); only there can a match start, since the pattern is
anchored by `^`.  On a failed attempt, or away from a `^` position, the scan
advances by one character, exactly as the regex engine tries successive
start positions; after a successful match it resumes at the match end, so a
directive swallowed by a previous match's whitespace or value is not
reported again.  The fuel is decremented on every step; each step consumes
at least one character, so `length + 1` fuel is never exhausted. -/
def scanVersionAux : Nat → List Char → Bool → List (String × String)
  | 0, _, _ => []
  | Nat.succ fuel, cs, atLineStart =>
    if atLineStart then
      match tryMatchVersion cs with
      | some (pair, rest) => pair :: scanVersionAux fuel rest false
      | none =>
        match cs with
        | [] => []
        | c :: rest => scanVersionAux fuel rest (c == '\n')
    else
      match cs with
      | [] => []
      | c :: rest => scanVersionAux fuel rest (c == '\n')

/-- Embedding of `VERSION_REGEX.findall(f.read())` (line 204): all captured
group pairs, in textual order of the non-overlapping scan. -/
def versionMatches (blob : String) : List (String × String) :=
  scanVersionAux (blob.data.length + 1) blob.data true

/-- Lookup in `dict(VERSION_REGEX.findall(...))` (line 204): `dict` keeps the
last value bound to a key, so a lookup returns the value of the last pair
carrying the key. -/
def dictLookup (pairs : List (String × String)) (k : String) : Option String :=
  (pairs.reverse.find? (fun p => p.1 == k)).map Prod.snd

/-- Embedding of lines 204-205: build the version string
from the MAJOR / MINOR / PATCH entries of the directive dictionary; a
missing key is the KeyError that `str.format` raises. -/
def extractVersion (blob : String) : Option String :=
  match dictLookup (versionMatches blob) "MAJOR",
        dictLookup (versionMatches blob) "MINOR",
        dictLookup (versionMatches blob) "PATCH" with
  | some major, some minor, some patch =>
    some (major ++ "." ++ minor ++ "." ++ patch)
  | _, _, _ => none

/-- Resolved build target: the normalized platform identifier `PLATFORM`
(lines 25-34), the selected `CMAKE_PRESET` and the `MSVC_PLAT_SPEC`
cross-compilation specifier (lines 37-65). -/
structure BuildTarget where
  PLATFORM : String
  CMAKE_PRESET : String
  MSVC_PLAT_SPEC : Option String
deriving DecidableEq, Repr

/-- Text of an optional environment value inside a Python f-string:
`None` prints as the string "None" (line 61 and line 144). -/
def abiText : Option String → String
  | some a => a
  | none => "None"

/-- Embedding of the `sys.platform` dispatch of lines 25-34: the normalized
platform identifier, or the `Unsupported platform` exception. -/
def resolvePLATFORM (sysPlatform : String) : Except String String :=
  if pyStartsWith sysPlatform "win" then Except.ok "windows"
  else if pyStartsWith sysPlatform "linux" then Except.ok "linux"
  else if pyStartsWith sysPlatform "darwin" then Except.ok "macos"
  else if pyStartsWith sysPlatform "android" then Except.ok "android"
  else Except.error ("Unsupported platform: " ++ sysPlatform)

/-- Embedding of the preset dispatch of lines 37-65 over the already
normalized `PLATFORM`, the `platform.machine()` string and the
`ANDROID_ABI` environment lookup. -/
def presetFor (PLATFORM machine : String) (env : String → Option String) :
    Except String BuildTarget :=
  if PLATFORM == "windows" then
    if asciiLower machine == "arm64" || asciiLower machine == "aarch64" then
      Except.ok ⟨PLATFORM, "windows-arm64-msvc", some "x86_arm64"⟩
    else
      Except.ok ⟨PLATFORM, "windows-msvc", some "x64"⟩
  else if PLATFORM == "linux" then Except.ok ⟨PLATFORM, "linux-gcc", none⟩
  else if PLATFORM == "macos" then Except.ok ⟨PLATFORM, "macos-arm64-clang", none⟩
  else if PLATFORM == "android" then
    if env "ANDROID_ABI" == some "arm64-v8a" then
      Except.ok ⟨PLATFORM, "android-arm64", none⟩
    else if env "ANDROID_ABI" == some "x86_64" then
      Except.ok ⟨PLATFORM, "android-x86_64", none⟩
    else
      Except.error ("Unsupported ANDROID_ABI for slangpy build: " ++ abiText (env "ANDROID_ABI")
        ++ " (expected arm64-v8a or x86_64)")
  else Except.error ("Unsupported platform: " ++ PLATFORM)

/-- Full module-level platform resolution (lines 25-65): OS dispatch followed
by preset dispatch.  Runs at import time, before any subprocess. -/
def resolveBuildTarget (sysPlatform machine : String) (env : String → Option String) :
    Except String BuildTarget :=
  match resolvePLATFORM sysPlatform with
  | Except.error e => Except.error e
  | Except.ok PLATFORM => presetFor PLATFORM machine env

/-- Line 67: the fixed default build type. -/
def CMAKE_CONFIG : String := "RelWithDebInfo"

/-- Line 70: the skip-native-build flag is active exactly when the variable
holds the string "1". -/
def NO_CMAKE_BUILD (env : String → Option String) : Bool :=
  env "NO_CMAKE_BUILD" == some "1"

/-- Line 73: the release-wheel flag is active exactly when the variable holds
the string "1". -/
def BUILD_RELEASE_WHEEL (env : String → Option String) : Bool :=
  env "BUILD_RELEASE_WHEEL" == some "1"

/-- Inputs of one `CMakeBuild.build_extension` invocation.  Environment
lookups and every filesystem / subprocess query answer are explicit fields,
so that a run of the builder is a pure function of this record. -/
structure BuildInputs where
  /-- The `sys.platform` string (module level). -/
  sysPlatform : String
  /-- The `platform.machine()` string (line 38). -/
  machine : String
  /-- The process environment, `os.environ`. -/
  env : String → Option String
  /-- The resolved extension output directory `extdir` (line 89). -/
  extdir : String
  /-- The `sys.prefix` of the running interpreter (line 135). -/
  sysPref : String
  /-- The resolved source directory `SOURCE_DIR` (line 23). -/
  sourceDir : String
  /-- Answer of `os.path.exists(build_dir)` (line 102). -/
  buildDirExists : Bool
  /-- The resolved sibling slang checkout `(SOURCE_DIR.parent / "slang").resolve()` (line 138). -/
  slangRoot : String
  /-- Answer of `python_prefix.glob("include/python3.*")` (line 128). -/
  toolchainPythonIncludeDirs : List String
  /-- Answer of `python_prefix.glob("lib/libpython3.*.so")` (line 132). -/
  toolchainPythonLibs : List String
  /-- Answer of `os.path.exists("/proc/sys/fs/binfmt_misc/WSLInterop")` (line 147). -/
  wslMarkerExists : Bool
  /-- Whether `shutil.which("wslpath")` found the tool (line 152). -/
  wslpathAvailable : Bool
  /-- Result of `subprocess.check_output(["wslpath", "-m", wsl_src]).decode("utf-8").strip()`:
  the decoded, stripped output, or the raised exception (line 152). -/
  wslpathOutput : Except String String

/-- Line 99: `build_dir = str(SOURCE_DIR / "build/pip")`. -/
def buildDirOf (i : BuildInputs) : String := i.sourceDir ++ "/build/pip"

/-- The unconditional head of `cmake_args` (lines 105-119). -/
def baseCmakeArgs (preset : String) (i : BuildInputs) : List String :=
  ["--preset", preset,
   "-B", buildDirOf i,
   "-DCMAKE_DEFAULT_BUILD_TYPE=" ++ CMAKE_CONFIG,
   "-DPython_FIND_REGISTRY:STRING=NEVER",
   "-DCMAKE_INSTALL_PREFIX=" ++ i.extdir,
   "-DCMAKE_INSTALL_LIBDIR=.",
   "-DCMAKE_INSTALL_BINDIR=.",
   "-DCMAKE_INSTALL_INCLUDEDIR=include",
   "-DCMAKE_INSTALL_DATAROOTDIR=.",
   "-DSGL_BUILD_EXAMPLES=OFF",
   "-DSGL_BUILD_TESTS=OFF"]

/-- Lines 121-135: on Android, the explicit interpreter header and library
paths (failed `assert` on a missing/empty `CMAKE_TOOLCHAIN_FILE`, IndexError
on an empty glob answer); on every other platform, `cmake_args.insert(5, ...)`
of the Python root-directory hint. -/
def pythonLocateArgs (PLATFORM preset : String) (i : BuildInputs) :
    Except String (List String) :=
  if PLATFORM == "android" then
    match i.env "CMAKE_TOOLCHAIN_FILE" with
    | none => Except.error "CMAKE_TOOLCHAIN_FILE environment variable is not set!"
    | some toolchain_file =>
      if toolchain_file = "" then
        Except.error "CMAKE_TOOLCHAIN_FILE environment variable is not set!"
      else
        match i.toolchainPythonIncludeDirs with
        | [] => Except.error "IndexError: list index out of range"
        | inc :: _ =>
          match i.toolchainPythonLibs with
          | [] => Except.error "IndexError: list index out of range"
          | lib :: _ =>
            Except.ok (baseCmakeArgs preset i ++
              ["-DPython_INCLUDE_DIR=" ++ inc, "-DPython_LIBRARY=" ++ lib])
  else
    Except.ok ((baseCmakeArgs preset i).take 5 ++
      ("-DPython_ROOT_DIR:PATH=" ++ i.sysPref) :: (baseCmakeArgs preset i).drop 5)

/-- Lines 137-145: the Android-only local-slang arguments. -/
def slangArgsOf (env : String → Option String) (slangRoot : String) : List String :=
  ["-DSGL_LOCAL_SLANG=ON",
   "-DSGL_LOCAL_SLANG_DIR=" ++ slangRoot,
   "-DSGL_LOCAL_SLANG_BUILD_DIR=build-android-" ++ abiText (env "ANDROID_ABI") ++ "/" ++ CMAKE_CONFIG]

/-- Lines 147-159: the WSL debug-info path-mapping flags.  When the
WSLInterop marker is absent nothing happens; otherwise the host path is the
`wslpath` output when the tool exists (a raised exception is caught by the
`except` clause and swallowed) and the WSL path itself when it does not; the
two compiler-flag entries are produced only when the two paths differ. -/
def pathMapFlags (wslMarkerExists wslpathAvailable : Bool)
    (wslpathOutput : Except String String) (wsl_src : String) : List String :=
  if wslMarkerExists then
    match (if wslpathAvailable then wslpathOutput else Except.ok wsl_src) with
    | Except.error _ => []
    | Except.ok win_src =>
      if win_src ≠ wsl_src then
        ["-DCMAKE_C_FLAGS=-fdebug-prefix-map=" ++ wsl_src ++ "=" ++ win_src,
         "-DCMAKE_CXX_FLAGS=-fdebug-prefix-map=" ++ wsl_src ++ "=" ++ win_src]
      else []
  else []

/-- Lines 167-169: the raw user arguments from the whitespace-delimited
`CMAKE_ARGS` environment variable, empty items dropped. -/
def userCmakeArgs (env : String → Option String) : List String :=
  match env "CMAKE_ARGS" with
  | none => []
  | some s => ((splitOnChar ' ' s.data).map String.mk).filter (fun item => !(item == ""))

/-- Lines 105-165: every built-in configuration argument, in source order:
base list with the python-location arguments spliced in, then the Android
local-slang block, then the WSL path-mapping flags, then the release-wheel
flags. -/
def cmakeArgsBuiltin (PLATFORM preset : String) (i : BuildInputs) :
    Except String (List String) :=
  match pythonLocateArgs PLATFORM preset i with
  | Except.error e => Except.error e
  | Except.ok args1 =>
    let args2 := if PLATFORM == "android" then args1 ++ slangArgsOf i.env i.slangRoot else args1
    let args3 := args2 ++ pathMapFlags i.wslMarkerExists i.wslpathAvailable i.wslpathOutput i.sourceDir
    let args4 := if BUILD_RELEASE_WHEEL i.env then
        args3 ++ ["-DSGL_PROJECT_DIR=", "-DSGL_SLANG_DEBUG_INFO=OFF"]
      else args3
    Except.ok args4

/-- Lines 105-169: the complete configure argument list, the user-supplied
`CMAKE_ARGS` items appended verbatim at the very end. -/
def cmake_args (PLATFORM preset : String) (i : BuildInputs) :
    Except String (List String) :=
  match cmakeArgsBuiltin PLATFORM preset i with
  | Except.error e => Except.error e
  | Except.ok builtin => Except.ok (builtin ++ userCmakeArgs i.env)

/-- Observable filesystem and subprocess effects of `build_extension`. -/
inductive Effect where
  | rmtree : String → Effect
  | run : List String → Effect
deriving DecidableEq, Repr

/-- Lines 99-178 of `build_extension` as an effect trace: the conditional
wipe of the working directory (lines 101-103) followed by the three pipeline
invocations (lines 172-178).  Argument construction performs no filesystem
mutation, so the wipe is the only effect preceding the configure run. -/
def buildExtensionTrace (PLATFORM preset : String) (i : BuildInputs) :
    Except String (List Effect) :=
  match cmake_args PLATFORM preset i with
  | Except.error e => Except.error e
  | Except.ok args =>
    Except.ok ((if i.buildDirExists then [Effect.rmtree (buildDirOf i)] else []) ++
      [Effect.run ("cmake" :: args),
       Effect.run ["cmake", "--build", buildDirOf i, "--config", CMAKE_CONFIG],
       Effect.run ["cmake", "--install", buildDirOf i, "--config", CMAKE_CONFIG]])

/-- The whole orchestration: module-level platform resolution, then the
build-extension effect trace.  A resolution failure raises before any
effect is produced. -/
def orchestrate (i : BuildInputs) : Except String (List Effect) :=
  match resolveBuildTarget i.sysPlatform i.machine i.env with
  | Except.error e => Except.error e
  | Except.ok t => buildExtensionTrace t.PLATFORM t.CMAKE_PRESET i

/-- Effects preceding the first subprocess invocation of a trace. -/
def preRunEffects : List Effect → List Effect
  | [] => []
  | Effect.run _ :: _ => []
  | e :: rest => e :: preRunEffects rest

/-- Interpretation of one effect on a directory-existence map:
`shutil.rmtree` removes the directory, a subprocess invocation is a pure
observation at the moment it starts. -/
def applyEffect (fs : String → Bool) : Effect → (String → Bool)
  | Effect.rmtree p => fun q => if q = p then false else fs q
  | Effect.run _ => fs

/-- The three pipeline phases of lines 172-178. -/
inductive Phase where
  | configure | build | install
deriving DecidableEq, Repr

/-- Lines 172-178: the three `subprocess.run(..., check=True)` invocations.
Given the exit code of each phase, returns the list of phases that actually
start, in order, together with the overall outcome: `check=True` raises
`CalledProcessError` on a non-zero exit, which aborts `build_extension`
before the next phase is invoked. -/
def invokePipeline (exitCode : Phase → Int) : List Phase × Except String Unit :=
  if exitCode Phase.configure ≠ 0 then
    ([Phase.configure], Except.error "CalledProcessError: configure")
  else if exitCode Phase.build ≠ 0 then
    ([Phase.configure, Phase.build], Except.error "CalledProcessError: build")
  else if exitCode Phase.install ≠ 0 then
    ([Phase.configure, Phase.build, Phase.install], Except.error "CalledProcessError: install")
  else
    ([Phase.configure, Phase.build, Phase.install], Except.ok ())

/-- Line 213: the extension list handed to `setup`; empty exactly when the
skip-native-build flag is active. -/
def extModules (env : String → Option String) : List String :=
  if NO_CMAKE_BUILD env then [] else ["slangpy.slangpy_ext"]

/-- Lines 189-195: `CustomBuildPy` copies the data directory into the wheel
exactly when the release-wheel flag is active. -/
def buildPyCopiesData (env : String → Option String) : Bool :=
  BUILD_RELEASE_WHEEL env

/-- Predicate picking the install-directory override entries out of a
configuration list. -/
def isInstallDirOverride (s : String) : Bool :=
  pyStartsWith s "-DCMAKE_INSTALL_"

/-- An environment with no variables set. -/
def emptyEnv : String → Option String := fun _ => none

/-- Concrete sample inputs: a Linux host, no relevant environment variables,
a pre-existing working directory, no WSL marker. -/
def sampleInputs : BuildInputs where
  sysPlatform := "linux"
  machine := "x86_64"
  env := emptyEnv
  extdir := "/ext"
  sysPref := "/usr"
  sourceDir := "/src"
  buildDirExists := true
  slangRoot := "/slang"
  toolchainPythonIncludeDirs := []
  toolchainPythonLibs := []
  wslMarkerExists := false
  wslpathAvailable := false
  wslpathOutput := Except.error "wslpath not run"

/-- The configuration list the builder produces on `sampleInputs`. -/
def sampleArgs : List String :=
  ["--preset", "linux-gcc",
   "-B", "/src/build/pip",
   "-DCMAKE_DEFAULT_BUILD_TYPE=RelWithDebInfo",
   "-DPython_ROOT_DIR:PATH=/usr",
   "-DPython_FIND_REGISTRY:STRING=NEVER",
   "-DCMAKE_INSTALL_PREFIX=/ext",
   "-DCMAKE_INSTALL_LIBDIR=.",
   "-DCMAKE_INSTALL_BINDIR=.",
   "-DCMAKE_INSTALL_INCLUDEDIR=include",
   "-DCMAKE_INSTALL_DATAROOTDIR=.",
   "-DSGL_BUILD_EXAMPLES=OFF",
   "-DSGL_BUILD_TESTS=OFF"]

/-- Helper: a search that fails on the first list continues on the second. -/
theorem find?_append_of_none {α : Type} {p : α → Bool} {l₁ l₂ : List α}
    (h : l₁.find? p = none) : (l₁ ++ l₂).find? p = l₂.find? p := by
  induction l₁ with
  | nil => rfl
  | cons a t ih =>
    cases hpa : p a with
    | true => rw [List.find?_cons_of_pos _ hpa] at h; cases h
    | false =>
      rw [List.find?_cons_of_neg _ (by simp [hpa])] at h
      rw [List.cons_append, List.find?_cons_of_neg _ (by simp [hpa])]
      exact ih h

/-- Helper: when some pair carries the key and every pair carrying the key
carries the same value, the dictionary lookup returns that value. -/
theorem dictLookup_eq_of_forall {ms : List (String × String)} {k v : String}
    (hex : ∃ p ∈ ms, p.1 = k) (hall : ∀ p ∈ ms, p.1 = k → p.2 = v) :
    dictLookup ms k = some v := by
  unfold dictLookup
  cases hf : ms.reverse.find? (fun p => p.1 == k) with
  | none =>
    rw [List.find?_eq_none] at hf
    obtain ⟨p, hp, hk⟩ := hex
    exact absurd (by simpa using hk) (hf p (List.mem_reverse.mpr hp))
  | some q =>
    have hq : q.1 = k := by simpa using List.find?_some hf
    have hqm : q ∈ ms := List.mem_reverse.mp (List.mem_of_find?_eq_some hf)
    simp [hall q hqm hq]

/-- Helper: the dictionary built from the pair list keeps the value of the
last pair carrying a key. -/
theorem dictLookup_append_last {l₁ l₂ : List (String × String)} {k v : String}
    (h : ∀ p ∈ l₂, p.1 ≠ k) :
    dictLookup (l₁ ++ (k, v) :: l₂) k = some v := by
  unfold dictLookup
  rw [List.reverse_append, List.reverse_cons]
  have hnone : (l₂.reverse.find? (fun p => p.1 == k)) = none := by
    rw [List.find?_eq_none]
    intro p hp
    simpa using h p (List.mem_reverse.mp hp)
  rw [List.append_assoc, find?_append_of_none hnone]
  simp

/-- C8: for every text blob whose directive captures (the pairs the version
regex finds in the non-overlapping MULTILINE scan) are exactly the three
directives with suffixes MAJOR, MINOR, PATCH carrying the captured values
"1", "2", "3" — in any order, each present at least once, interspersed with
arbitrary content the regex does not capture — the extracted version string
is exactly "1.2.3"; the captured values are passed through as text with no
numeric validation. -/
theorem c8_version_roundtrip (blob : String)
    (hall : ∀ p ∈ versionMatches blob,
      p = ("MAJOR", "1") ∨ p = ("MINOR", "2") ∨ p = ("PATCH", "3"))
    (hmaj : ("MAJOR", "1") ∈ versionMatches blob)
    (hmin : ("MINOR", "2") ∈ versionMatches blob)
    (hpat : ("PATCH", "3") ∈ versionMatches blob) :
    extractVersion blob = some "1.2.3" := by
  have hM : dictLookup (versionMatches blob) "MAJOR" = some "1" := by
    apply dictLookup_eq_of_forall
    · exact ⟨("MAJOR", "1"), hmaj, rfl⟩
    · intro p hp hk
      rcases hall p hp with h | h | h <;> rw [h] at hk ⊢ <;> simp_all
  have hN : dictLookup (versionMatches blob) "MINOR" = some "2" := by
    apply dictLookup_eq_of_forall
    · exact ⟨("MINOR", "2"), hmin, rfl⟩
    · intro p hp hk
      rcases hall p hp with h | h | h <;> rw [h] at hk ⊢ <;> simp_all
  have hP : dictLookup (versionMatches blob) "PATCH" = some "3" := by
    apply dictLookup_eq_of_forall
    · exact ⟨("PATCH", "3"), hpat, rfl⟩
    · intro p hp hk
      rcases hall p hp with h | h | h <;> rw [h] at hk ⊢ <;> simp_all
  unfold extractVersion
  rw [hM, hN, hP]
  rfl

/-- Witness for C8 on a concrete blob with shuffled directives and
unrelated lines. -/
theorem c8_version_roundtrip_witness :
    extractVersion "// copyright\n#define SGL_VERSION_PATCH 3\nstruct sgl;\n #define SGL_VERSION_MAJOR 1\n# define SGL_VERSION_MINOR 2\n" = some "1.2.3" :=
  c8_version_roundtrip _ (by decide) (by decide) (by decide) (by decide)

/-- C9: duplicate directives do not make the extractor fail: the version
component comes from the last directive with the given suffix, and captured
directives with any other uppercase suffix are ignored by the version-string
construction (they may occur anywhere in the decompositions below). -/
theorem c9_last_directive_wins (blob : String) (a b c : String)
    (l₁ l₂ m₁ m₂ p₁ p₂ : List (String × String))
    (hmaj : versionMatches blob = l₁ ++ ("MAJOR", a) :: l₂)
    (hmaj2 : ∀ p ∈ l₂, p.1 ≠ "MAJOR")
    (hmin : versionMatches blob = m₁ ++ ("MINOR", b) :: m₂)
    (hmin2 : ∀ p ∈ m₂, p.1 ≠ "MINOR")
    (hpat : versionMatches blob = p₁ ++ ("PATCH", c) :: p₂)
    (hpat2 : ∀ p ∈ p₂, p.1 ≠ "PATCH") :
    extractVersion blob = some (a ++ "." ++ b ++ "." ++ c) := by
  have hA : dictLookup (versionMatches blob) "MAJOR" = some a := by
    rw [hmaj]; exact dictLookup_append_last hmaj2
  have hB : dictLookup (versionMatches blob) "MINOR" = some b := by
    rw [hmin]; exact dictLookup_append_last hmin2
  have hC : dictLookup (versionMatches blob) "PATCH" = some c := by
    rw [hpat]; exact dictLookup_append_last hpat2
  unfold extractVersion
  rw [hA, hB, hC]

/-- Witness for C9: two MAJOR directives — the later one spans a line
boundary (suffix on one line, value 9 on the next, matched because the
whitespace class of the regex crosses newlines) and wins — plus an ignored
FOO directive. -/
theorem c9_last_directive_wins_witness :
    extractVersion "#define SGL_VERSION_MAJOR 1\n#define SGL_VERSION_MINOR 2\n#define SGL_VERSION_PATCH 3\n#define SGL_VERSION_FOO x\n#define SGL_VERSION_MAJOR\n9\n" = some "9.2.3" :=
  c9_last_directive_wins _ "9" "2" "3"
    [("MAJOR", "1"), ("MINOR", "2"), ("PATCH", "3"), ("FOO", "x")] []
    [("MAJOR", "1")] [("PATCH", "3"), ("FOO", "x"), ("MAJOR", "9")]
    [("MAJOR", "1"), ("MINOR", "2")] [("FOO", "x"), ("MAJOR", "9")]
    (by decide) (by decide) (by decide) (by decide) (by decide) (by decide)

/-- C10: the skip-native-build and release-wheel modes are active exactly
when their environment variables hold the exact string "1"; any other value
or an unset variable leaves the native extension in the extension list and
release-wheel data bundling switched off. -/
theorem c10_env_flags (env : String → Option String) :
    (NO_CMAKE_BUILD env = true ↔ env "NO_CMAKE_BUILD" = some "1") ∧
    (BUILD_RELEASE_WHEEL env = true ↔ env "BUILD_RELEASE_WHEEL" = some "1") ∧
    (extModules env = [] ↔ env "NO_CMAKE_BUILD" = some "1") ∧
    (extModules env ≠ [] ↔ env "NO_CMAKE_BUILD" ≠ some "1") ∧
    (buildPyCopiesData env = true ↔ env "BUILD_RELEASE_WHEEL" = some "1") := by
  have h1 : NO_CMAKE_BUILD env = true ↔ env "NO_CMAKE_BUILD" = some "1" := by
    unfold NO_CMAKE_BUILD
    exact beq_iff_eq
  have h2 : BUILD_RELEASE_WHEEL env = true ↔ env "BUILD_RELEASE_WHEEL" = some "1" := by
    unfold BUILD_RELEASE_WHEEL
    exact beq_iff_eq
  have h3 : extModules env = [] ↔ env "NO_CMAKE_BUILD" = some "1" := by
    unfold extModules
    rw [← h1]
    cases hb : NO_CMAKE_BUILD env <;> simp [hb]
  exact ⟨h1, h2, h3, by rw [not_iff_not]; exact h3, h2⟩

/-- Witness for C10: the value "true" does not activate the skip-build mode,
so the native extension is still built. -/
theorem c10_env_flags_witness :
    extModules (fun _ => some "true") ≠ [] := by
  have h := (c10_env_flags (fun _ => some "true")).2.2.2.1
  exact h.mpr (by decide)

/-- C2: the three pipeline phases start in the fixed order configure, build,
install; each phase starts at most once (no retry); and a non-zero exit code
from a phase aborts every later phase — in particular a failing configure
phase means neither build nor install ever starts, and the failure
propagates as an error. -/
theorem c2_pipeline_order (exitCode : Phase → Int) :
    ((invokePipeline exitCode).1 = [Phase.configure] ∨
     (invokePipeline exitCode).1 = [Phase.configure, Phase.build] ∨
     (invokePipeline exitCode).1 = [Phase.configure, Phase.build, Phase.install]) ∧
    (invokePipeline exitCode).1.Nodup ∧
    (exitCode Phase.configure ≠ 0 →
      (invokePipeline exitCode).1 = [Phase.configure] ∧
      Phase.build ∉ (invokePipeline exitCode).1 ∧
      Phase.install ∉ (invokePipeline exitCode).1 ∧
      (invokePipeline exitCode).2 = Except.error "CalledProcessError: configure") ∧
    (exitCode Phase.configure = 0 → exitCode Phase.build ≠ 0 →
      (invokePipeline exitCode).1 = [Phase.configure, Phase.build] ∧
      Phase.install ∉ (invokePipeline exitCode).1) := by
  by_cases h1 : exitCode Phase.configure = 0
  · by_cases h2 : exitCode Phase.build = 0
    · by_cases h3 : exitCode Phase.install = 0 <;>
        simp [invokePipeline, h1, h2, h3]
    · simp [invokePipeline, h1, h2]
  · simp [invokePipeline, h1]

/-- Witness for C2: with a failing configure phase, only the configure phase
ever starts. -/
theorem c2_pipeline_order_witness :
    (invokePipeline (fun p => match p with | Phase.configure => 1 | _ => 0)).1 = [Phase.configure] :=
  ((c2_pipeline_order (fun p => match p with | Phase.configure => 1 | _ => 0)).2.2.1
    (by decide)).1

/-- Helper: every successful preset dispatch yields a preset from the fixed
closed six-element set. -/
theorem presetFor_mem_presets (PLATFORM machine : String) (env : String → Option String)
    (t : BuildTarget) (ht : presetFor PLATFORM machine env = Except.ok t) :
    t.CMAKE_PRESET ∈ ["windows-msvc", "windows-arm64-msvc", "linux-gcc",
      "macos-arm64-clang", "android-arm64", "android-x86_64"] := by
  unfold presetFor at ht
  split at ht
  · split at ht <;> (cases ht; simp)
  · split at ht
    · cases ht; simp
    · split at ht
      · cases ht; simp
      · split at ht
        · split at ht
          · cases ht; simp
          · split at ht
            · cases ht; simp
            · cases ht
        · cases ht

/-- C1: platform resolution is total and single-valued on the supported
pairs: every successful resolution yields a preset from the fixed closed
six-element set; Windows selects the ARM64 preset exactly when the
lowercased machine string is arm64 or aarch64 and the default 64-bit preset
otherwise; Linux and macOS map to one fixed preset each ignoring the machine
string; Android selects by the ANDROID_ABI value arm64-v8a or x86_64 and
fails on a missing or unrecognized ABI; any other OS identifier fails; and a
resolution failure makes the whole orchestration fail before any effect
(in particular any subprocess run) is produced. -/
theorem c1_platform_resolution (sysPlatform machine : String) (env : String → Option String) :
    (∀ t, resolveBuildTarget sysPlatform machine env = Except.ok t →
      t.CMAKE_PRESET ∈ ["windows-msvc", "windows-arm64-msvc", "linux-gcc",
        "macos-arm64-clang", "android-arm64", "android-x86_64"]) ∧
    (pyStartsWith sysPlatform "win" = true →
      ((asciiLower machine = "arm64" ∨ asciiLower machine = "aarch64") →
        resolveBuildTarget sysPlatform machine env =
          Except.ok ⟨"windows", "windows-arm64-msvc", some "x86_arm64"⟩) ∧
      (asciiLower machine ≠ "arm64" → asciiLower machine ≠ "aarch64" →
        resolveBuildTarget sysPlatform machine env =
          Except.ok ⟨"windows", "windows-msvc", some "x64"⟩)) ∧
    (pyStartsWith sysPlatform "win" = false → pyStartsWith sysPlatform "linux" = true →
      resolveBuildTarget sysPlatform machine env = Except.ok ⟨"linux", "linux-gcc", none⟩) ∧
    (pyStartsWith sysPlatform "win" = false → pyStartsWith sysPlatform "linux" = false →
      pyStartsWith sysPlatform "darwin" = true →
      resolveBuildTarget sysPlatform machine env =
        Except.ok ⟨"macos", "macos-arm64-clang", none⟩) ∧
    (pyStartsWith sysPlatform "win" = false → pyStartsWith sysPlatform "linux" = false →
      pyStartsWith sysPlatform "darwin" = false → pyStartsWith sysPlatform "android" = true →
      ((env "ANDROID_ABI" = some "arm64-v8a" →
        resolveBuildTarget sysPlatform machine env =
          Except.ok ⟨"android", "android-arm64", none⟩) ∧
       (env "ANDROID_ABI" = some "x86_64" →
        resolveBuildTarget sysPlatform machine env =
          Except.ok ⟨"android", "android-x86_64", none⟩) ∧
       (env "ANDROID_ABI" = none →
        ∃ e, resolveBuildTarget sysPlatform machine env = Except.error e) ∧
       (∀ v, env "ANDROID_ABI" = some v → v ≠ "arm64-v8a" → v ≠ "x86_64" →
        ∃ e, resolveBuildTarget sysPlatform machine env = Except.error e))) ∧
    (pyStartsWith sysPlatform "win" = false → pyStartsWith sysPlatform "linux" = false →
      pyStartsWith sysPlatform "darwin" = false → pyStartsWith sysPlatform "android" = false →
      ∃ e, resolveBuildTarget sysPlatform machine env = Except.error e) ∧
    (∀ (i : BuildInputs) (e : String),
      resolveBuildTarget i.sysPlatform i.machine i.env = Except.error e →
      orchestrate i = Except.error e) := by
  refine ⟨?_, ?_, ?_, ?_, ?_, ?_, ?_⟩
  · intro t ht
    unfold resolveBuildTarget at ht
    split at ht
    · cases ht
    · exact presetFor_mem_presets _ machine env t ht
  · intro hwin
    constructor
    · intro harm
      unfold resolveBuildTarget resolvePLATFORM
      rw [if_pos hwin]
      unfold presetFor
      rcases harm with h | h <;> simp [h]
    · intro h1 h2
      unfold resolveBuildTarget resolvePLATFORM
      rw [if_pos hwin]
      unfold presetFor
      simp [h1, h2]
  · intro hw hl
    unfold resolveBuildTarget resolvePLATFORM
    rw [if_neg (by simp [hw]), if_pos hl]
    rfl
  · intro hw hl hd
    unfold resolveBuildTarget resolvePLATFORM
    rw [if_neg (by simp [hw]), if_neg (by simp [hl]), if_pos hd]
    rfl
  · intro hw hl hd ha
    have hres : resolveBuildTarget sysPlatform machine env = presetFor "android" machine env := by
      unfold resolveBuildTarget resolvePLATFORM
      rw [if_neg (by simp [hw]), if_neg (by simp [hl]), if_neg (by simp [hd]), if_pos ha]
    refine ⟨?_, ?_, ?_, ?_⟩
    · intro habi
      rw [hres]
      unfold presetFor
      simp [habi]
    · intro habi
      rw [hres]
      unfold presetFor
      simp [habi]
    · intro habi
      rw [hres]
      unfold presetFor
      simp only [habi]
      simp only [abiText]
      simp
    · intro v habi hv1 hv2
      rw [hres]
      unfold presetFor
      simp only [habi]
      simp only [show ((some v == some "arm64-v8a") = false) from by simp [hv1],
        show ((some v == some "x86_64") = false) from by simp [hv2]]
      simp
  · intro hw hl hd ha
    unfold resolveBuildTarget resolvePLATFORM
    rw [if_neg (by simp [hw]), if_neg (by simp [hl]), if_neg (by simp [hd]),
      if_neg (by simp [ha])]
    exact ⟨_, rfl⟩
  · intro i e h
    unfold orchestrate
    rw [h]

/-- Witness for C1: a Linux host resolves to the fixed Linux preset. -/
theorem c1_platform_resolution_witness :
    resolveBuildTarget "linux" "x86_64" emptyEnv = Except.ok ⟨"linux", "linux-gcc", none⟩ :=
  (c1_platform_resolution "linux" "x86_64" emptyEnv).2.2.1 (by decide) (by decide)

/-- Boolean success observation on an Except value. -/
def isOkExcept {ε α : Type} : Except ε α → Bool
  | Except.ok _ => true
  | Except.error _ => false

/-- C3: the user-supplied `CMAKE_ARGS` items come verbatim after every
built-in argument: every configuration list the builder produces decomposes
as the built-in list followed by exactly the user-supplied items. -/
theorem c3_user_args_last (PLATFORM preset : String) (i : BuildInputs) (args : List String)
    (h : cmake_args PLATFORM preset i = Except.ok args) :
    ∃ builtin, cmakeArgsBuiltin PLATFORM preset i = Except.ok builtin ∧
      args = builtin ++ userCmakeArgs i.env := by
  unfold cmake_args at h
  split at h
  · cases h
  · next builtin heq =>
    cases h
    exact ⟨builtin, heq, rfl⟩

/-- Environment for the C3 witness: only `CMAKE_ARGS` is set (with a double
space producing an empty item that is dropped). -/
def userArgsEnv : String → Option String :=
  fun k => if k == "CMAKE_ARGS" then some "-DFOO=ON  -DBAR=OFF" else none

/-- Sample inputs with user-supplied CMake arguments. -/
def userArgsInputs : BuildInputs := { sampleInputs with env := userArgsEnv }

/-- Witness for C3: on a Linux configuration with two user arguments the
produced list is the built-in list with the user items at the very end. -/
theorem c3_user_args_last_witness :
    ∃ builtin, cmakeArgsBuiltin "linux" "linux-gcc" userArgsInputs = Except.ok builtin ∧
      sampleArgs ++ ["-DFOO=ON", "-DBAR=OFF"] = builtin ++ userCmakeArgs userArgsInputs.env :=
  c3_user_args_last "linux" "linux-gcc" userArgsInputs
    (sampleArgs ++ ["-DFOO=ON", "-DBAR=OFF"]) (by rfl)

/-- C5: whenever a build-extension trace is produced, the working directory
is absent at the moment the configure phase starts (the wipe is the only
effect before the first subprocess run), and when the directory pre-existed
the trace begins with its removal, immediately followed by the configure
invocation. -/
theorem c5_clean_workdir (PLATFORM preset : String) (i : BuildInputs)
    (tr : List Effect) (fs₀ : String → Bool)
    (htr : buildExtensionTrace PLATFORM preset i = Except.ok tr)
    (hfs : fs₀ (buildDirOf i) = i.buildDirExists) :
    ((preRunEffects tr).foldl applyEffect fs₀) (buildDirOf i) = false ∧
    (i.buildDirExists = true →
      ∃ args rest, tr = Effect.rmtree (buildDirOf i) :: Effect.run ("cmake" :: args) :: rest) := by
  unfold buildExtensionTrace at htr
  split at htr
  · cases htr
  · next args heq =>
    cases htr
    cases hb : i.buildDirExists
    · rw [hb] at hfs
      constructor
      · simp only [hb, Bool.false_eq_true, if_false, List.nil_append]
        simp [preRunEffects, hfs]
      · intro hcontra
        cases hcontra
    · constructor
      · simp only [hb, if_true, List.cons_append, List.nil_append]
        simp [preRunEffects, applyEffect]
      · intro _
        refine ⟨args,
          [Effect.run ["cmake", "--build", buildDirOf i, "--config", CMAKE_CONFIG],
           Effect.run ["cmake", "--install", buildDirOf i, "--config", CMAKE_CONFIG]], ?_⟩
        simp [hb]

/-- Witness for C5: on the sample inputs (pre-existing working directory)
the trace starts with the wipe and the directory is absent when the
configure phase starts. -/
theorem c5_clean_workdir_witness :
    ((preRunEffects (Effect.rmtree "/src/build/pip" :: Effect.run ("cmake" :: sampleArgs) ::
        [Effect.run ["cmake", "--build", "/src/build/pip", "--config", "RelWithDebInfo"],
         Effect.run ["cmake", "--install", "/src/build/pip", "--config", "RelWithDebInfo"]])).foldl
      applyEffect (fun p => p == "/src/build/pip")) (buildDirOf sampleInputs) = false ∧
    (sampleInputs.buildDirExists = true →
      ∃ args rest,
        (Effect.rmtree "/src/build/pip" :: Effect.run ("cmake" :: sampleArgs) ::
          [Effect.run ["cmake", "--build", "/src/build/pip", "--config", "RelWithDebInfo"],
           Effect.run ["cmake", "--install", "/src/build/pip", "--config", "RelWithDebInfo"]]) =
        Effect.rmtree (buildDirOf sampleInputs) :: Effect.run ("cmake" :: args) :: rest) :=
  c5_clean_workdir "linux" "linux-gcc" sampleInputs _ (fun p => p == "/src/build/pip")
    (by rfl) (by rfl)

/-- Helper: the python-location step never reads the WSL-related inputs. -/
theorem pythonLocateArgs_wsl_irrel (PLATFORM preset : String) (i : BuildInputs)
    (m a : Bool) (q : Except String String) :
    pythonLocateArgs PLATFORM preset
      { i with wslMarkerExists := m, wslpathAvailable := a, wslpathOutput := q } =
    pythonLocateArgs PLATFORM preset i := rfl

/-- C6: path mapping is best-effort and never fatal.  Without the
WSLInterop marker no remap flag is produced whatever the other inputs; with
the marker but an absent tool, a failing host-path query, or a query result
equal to the source path, no remap flag is produced either; and whether the
builder succeeds is entirely independent of the marker, the tool and the
query result, so a path-mapping failure never aborts the build. -/
theorem c6_pathmap_best_effort (avail m : Bool) (q : Except String String) (src e : String)
    (PLATFORM preset : String) (i : BuildInputs) :
    pathMapFlags false avail q src = [] ∧
    pathMapFlags true false q src = [] ∧
    pathMapFlags true true (Except.error e) src = [] ∧
    pathMapFlags true true (Except.ok src) src = [] ∧
    isOkExcept (cmake_args PLATFORM preset
        { i with wslMarkerExists := m, wslpathAvailable := avail, wslpathOutput := q }) =
      isOkExcept (cmake_args PLATFORM preset i) := by
  refine ⟨rfl, by simp [pathMapFlags], rfl, by simp [pathMapFlags], ?_⟩
  unfold cmake_args cmakeArgsBuiltin
  rw [pythonLocateArgs_wsl_irrel]
  cases hp : pythonLocateArgs PLATFORM preset i
  · rfl
  · rfl

/-- Sample inputs in which the WSL marker is present but the host-path query
raised. -/
def wslFailInputs : BuildInputs :=
  { sampleInputs with
    wslMarkerExists := true
    wslpathAvailable := true
    wslpathOutput := Except.error "wslpath exploded" }

/-- Witness for C6 at concrete inputs: a failing query with the marker
present yields no flags, and the sample build's success is unchanged by a
failing query. -/
theorem c6_pathmap_best_effort_witness :
    pathMapFlags true true (Except.error "wslpath exploded") "/src" = [] ∧
    isOkExcept (cmake_args "linux" "linux-gcc" wslFailInputs) =
      isOkExcept (cmake_args "linux" "linux-gcc" sampleInputs) :=
  ⟨(c6_pathmap_best_effort true true (Except.error "wslpath exploded") "/src"
      "wslpath exploded" "linux" "linux-gcc" sampleInputs).2.2.1,
   (c6_pathmap_best_effort true true (Except.error "wslpath exploded") "/src"
      "wslpath exploded" "linux" "linux-gcc" sampleInputs).2.2.2.2⟩

/-- Helper: inserting an element at a position preserves the other members. -/
theorem mem_take_cons_drop {α : Type} (x y : α) (n : Nat) (l : List α) (h : x ∈ l) :
    x ∈ l.take n ++ y :: l.drop n := by
  rw [← List.take_append_drop n l] at h
  rcases List.mem_append.mp h with h | h
  · exact List.mem_append.mpr (Or.inl h)
  · exact List.mem_append.mpr (Or.inr (List.mem_cons_of_mem y h))

/-- Helper: every unconditional base argument survives the python-location
step. -/
theorem mem_of_pythonLocateArgs {PLATFORM preset : String} {i : BuildInputs} {x : String}
    (hx : x ∈ baseCmakeArgs preset i) {res : List String}
    (h : pythonLocateArgs PLATFORM preset i = Except.ok res) : x ∈ res := by
  unfold pythonLocateArgs at h
  split at h
  · split at h
    · cases h
    · split at h
      · cases h
      · split at h
        · cases h
        · split at h
          · cases h
          · cases h
            exact List.mem_append_left _ hx
  · cases h
    exact mem_take_cons_drop _ _ _ _ hx

/-- Helper: every unconditional base argument survives the whole built-in
argument assembly. -/
theorem mem_of_cmakeArgsBuiltin {PLATFORM preset : String} {i : BuildInputs} {x : String}
    (hx : x ∈ baseCmakeArgs preset i) {res : List String}
    (h : cmakeArgsBuiltin PLATFORM preset i = Except.ok res) : x ∈ res := by
  unfold cmakeArgsBuiltin at h
  split at h
  · cases h
  · next args1 heq =>
    cases h
    have h1 : x ∈ args1 := mem_of_pythonLocateArgs hx heq
    split_ifs <;> simp [List.mem_append, h1]

/-- Helper: every unconditional base argument is in the final configuration
list. -/
theorem mem_of_cmake_args {PLATFORM preset : String} {i : BuildInputs} {x : String}
    (hx : x ∈ baseCmakeArgs preset i) {args : List String}
    (h : cmake_args PLATFORM preset i = Except.ok args) : x ∈ args := by
  rcases c3_user_args_last PLATFORM preset i args h with ⟨builtin, heq, hdec⟩
  rw [hdec]
  exact List.mem_append_left _ (mem_of_cmakeArgsBuiltin hx heq)

/-- C7 (amended): every configuration list the builder produces contains the
selected preset name, the working-directory path, the default build-type
label, the flag disabling the Python registry lookup, the FIVE fixed
install-directory overrides, and the two flags disabling the external
system's example and test targets. -/
theorem c7_always_included (PLATFORM preset : String) (i : BuildInputs) (args : List String)
    (h : cmake_args PLATFORM preset i = Except.ok args) :
    "--preset" ∈ args ∧ preset ∈ args ∧ "-B" ∈ args ∧ buildDirOf i ∈ args ∧
    ("-DCMAKE_DEFAULT_BUILD_TYPE=" ++ CMAKE_CONFIG) ∈ args ∧
    "-DPython_FIND_REGISTRY:STRING=NEVER" ∈ args ∧
    ("-DCMAKE_INSTALL_PREFIX=" ++ i.extdir) ∈ args ∧
    "-DCMAKE_INSTALL_LIBDIR=." ∈ args ∧
    "-DCMAKE_INSTALL_BINDIR=." ∈ args ∧
    "-DCMAKE_INSTALL_INCLUDEDIR=include" ∈ args ∧
    "-DCMAKE_INSTALL_DATAROOTDIR=." ∈ args ∧
    "-DSGL_BUILD_EXAMPLES=OFF" ∈ args ∧
    "-DSGL_BUILD_TESTS=OFF" ∈ args := by
  refine ⟨?_, ?_, ?_, ?_, ?_, ?_, ?_, ?_, ?_, ?_, ?_, ?_, ?_⟩ <;>
    exact mem_of_cmake_args (by simp [baseCmakeArgs]) h

/-- Witness for C7 (amended claim) at the concrete sample configuration. -/
theorem c7_always_included_witness :
    "--preset" ∈ sampleArgs ∧ "linux-gcc" ∈ sampleArgs ∧ "-B" ∈ sampleArgs ∧
    buildDirOf sampleInputs ∈ sampleArgs ∧
    ("-DCMAKE_DEFAULT_BUILD_TYPE=" ++ CMAKE_CONFIG) ∈ sampleArgs ∧
    "-DPython_FIND_REGISTRY:STRING=NEVER" ∈ sampleArgs ∧
    ("-DCMAKE_INSTALL_PREFIX=" ++ sampleInputs.extdir) ∈ sampleArgs ∧
    "-DCMAKE_INSTALL_LIBDIR=." ∈ sampleArgs ∧
    "-DCMAKE_INSTALL_BINDIR=." ∈ sampleArgs ∧
    "-DCMAKE_INSTALL_INCLUDEDIR=include" ∈ sampleArgs ∧
    "-DCMAKE_INSTALL_DATAROOTDIR=." ∈ sampleArgs ∧
    "-DSGL_BUILD_EXAMPLES=OFF" ∈ sampleArgs ∧
    "-DSGL_BUILD_TESTS=OFF" ∈ sampleArgs :=
  c7_always_included "linux" "linux-gcc" sampleInputs sampleArgs (by rfl)

/-- Counterexample for C7 as stated: the builder's configuration list on the
sample inputs contains exactly FIVE install-directory override entries, so
it cannot contain install-directory overrides for six distinct categories. -/
theorem c7_six_categories_counterexample :
    cmake_args "linux" "linux-gcc" sampleInputs = Except.ok sampleArgs ∧
    (sampleArgs.filter isInstallDirOverride).length = 5 ∧
    ¬ ∃ l : List String, l.Nodup ∧ l.length = 6 ∧
        ∀ x ∈ l, x ∈ sampleArgs ∧ isInstallDirOverride x = true := by
  refine ⟨by rfl, by decide, ?_⟩
  rintro ⟨l, hnd, hlen, hall⟩
  have hsub : l.toFinset ⊆ (sampleArgs.filter isInstallDirOverride).toFinset := by
    intro x hx
    rw [List.mem_toFinset] at hx ⊢
    rw [List.mem_filter]
    exact hall x hx
  have hcard := Finset.card_le_card hsub
  rw [List.toFinset_card_of_nodup hnd, hlen] at hcard
  have h5 : (sampleArgs.filter isInstallDirOverride).toFinset.card = 5 := by decide
  rw [h5] at hcard
  exact absurd hcard (by decide)

/-- C4: the builder is deterministic and its output depends only on its
declared inputs: the platform resolution reads the environment only through
ANDROID_ABI, and the configuration list only through ANDROID_ABI,
CMAKE_TOOLCHAIN_FILE, BUILD_RELEASE_WHEEL and CMAKE_ARGS.  Two runs whose
environments agree on those variables and that share every other input
(machine strings, mode flags, filesystem and subprocess query answers)
produce identical resolutions and byte-identical ordered configuration
lists, hence identical effect traces. -/
theorem c4_deterministic (i : BuildInputs) (env₂ : String → Option String)
    (h1 : i.env "ANDROID_ABI" = env₂ "ANDROID_ABI")
    (h2 : i.env "CMAKE_TOOLCHAIN_FILE" = env₂ "CMAKE_TOOLCHAIN_FILE")
    (h3 : i.env "BUILD_RELEASE_WHEEL" = env₂ "BUILD_RELEASE_WHEEL")
    (h4 : i.env "CMAKE_ARGS" = env₂ "CMAKE_ARGS") :
    resolveBuildTarget i.sysPlatform i.machine i.env =
      resolveBuildTarget i.sysPlatform i.machine env₂ ∧
    (∀ PLATFORM preset : String,
      cmake_args PLATFORM preset i = cmake_args PLATFORM preset { i with env := env₂ }) ∧
    orchestrate i = orchestrate { i with env := env₂ } := by
  have hres : resolveBuildTarget i.sysPlatform i.machine i.env =
      resolveBuildTarget i.sysPlatform i.machine env₂ := by
    unfold resolveBuildTarget presetFor
    rw [h1]
  have hargs : ∀ PLATFORM preset : String,
      cmake_args PLATFORM preset i = cmake_args PLATFORM preset { i with env := env₂ } := by
    intro PLATFORM preset
    unfold cmake_args cmakeArgsBuiltin pythonLocateArgs userCmakeArgs slangArgsOf
      BUILD_RELEASE_WHEEL baseCmakeArgs buildDirOf
    dsimp only
    rw [h1, h2, h3, h4]
  have htrace : ∀ P C : String,
      buildExtensionTrace P C i = buildExtensionTrace P C { i with env := env₂ } := by
    intro P C
    unfold buildExtensionTrace
    rw [← hargs P C]
    rfl
  refine ⟨hres, hargs, ?_⟩
  unfold orchestrate
  dsimp only
  rw [← hres]
  cases resolveBuildTarget i.sysPlatform i.machine i.env with
  | error e => rfl
  | ok t => exact htrace t.PLATFORM t.CMAKE_PRESET

/-- Environment differing from the sample environment only in a variable the
builder never reads. -/
def noisyEnv : String → Option String :=
  fun k => if k == "PATH" then some "/usr/bin" else none

/-- Witness for C4: replacing the sample environment by one that agrees on
the four consumed variables leaves resolution and the whole effect trace
unchanged. -/
theorem c4_deterministic_witness :
    resolveBuildTarget sampleInputs.sysPlatform sampleInputs.machine sampleInputs.env =
      resolveBuildTarget sampleInputs.sysPlatform sampleInputs.machine noisyEnv ∧
    orchestrate sampleInputs = orchestrate { sampleInputs with env := noisyEnv } :=
  ⟨(c4_deterministic sampleInputs noisyEnv (by decide) (by decide) (by decide) (by decide)).1,
   (c4_deterministic sampleInputs noisyEnv (by decide) (by decide) (by decide) (by decide)).2.2⟩
